import Mathlib

/-!
Shallow embedding of the you.com streaming relay (the OpenAI-compatible
chat-completions gateway in this repository), together with theorems
checking the natural-language specification against it.

The embedding models, faithfully to the JavaScript source:
  - the content normalizer (`extractTextContent`, `hasImageContent`,
    `countTokens`, `countTokensForMessages`);
  - the system-message fold (`convertSystemToUserMessages`);
  - the history fold that turns a message list into Question/Answer turns;
  - the offload decisions for oversized history turns and the final query,
    and the back-reference string substituted for offloaded text;
  - the model-name mapping table with its forward/reverse lookups;
  - the SSE token collector (`collectYouTokensStream`) and the streaming
    relay (`streamOpenAIChunks`), modelled line-by-line over the upstream
    body, with `JSON.parse(...)?.youChatToken` extraction abstracted as an
    explicit parse-oracle parameter (it is a platform builtin, not code of
    this repository).

JavaScript machine behaviour that the claims depend on (undefined
dereference raising a TypeError, unhandled exceptions surfacing as HTTP
500) is modelled with `Except`.
-/

/- ====================== data model ====================== -/

/-- One element of an OpenAI multi-part `content` array: a text part, an
image-url part (carrying the url), or anything else. -/
inductive ContentPart where
  | text (t : String)
  | imageUrl (url : String)
  | other
deriving DecidableEq, Repr

/-- The `content` field of an OpenAI message: a plain string, an array of
parts, or anything else (absent / null / unrecognized). -/
inductive Content where
  | str (s : String)
  | parts (ps : List ContentPart)
  | other
deriving DecidableEq, Repr

/-- An OpenAI chat message: a role string and a content value. -/
structure Msg where
  role : String
  content : Content
deriving DecidableEq, Repr

/-- One history unit pushed by the fold: `{Question, Answer}`. -/
structure Turn where
  Question : String
  Answer : String
deriving DecidableEq, Repr

/- ====================== content normalizer ====================== -/

/-- Embeds `extractTextContent(content)`: a string content is returned
as-is; an array keeps the `text` of its text parts, drops empty strings
(the JS `.filter(Boolean)`), and joins with newlines; anything else
yields the empty string. -/
def extractTextContent : Content → String
  | .str s => s
  | .parts ps =>
      String.intercalate "\n"
        (((ps.map fun p =>
            match p with
            | .text t => t
            | _ => "")).filter fun t => t ≠ "")
  | .other => ""

/-- Embeds `hasImageContent(content)`: true iff content is an array with
an image part whose url is truthy (non-empty). -/
def hasImageContent : Content → Bool
  | .parts ps =>
      ps.any fun p =>
        match p with
        | .imageUrl url => url ≠ ""
        | _ => false
  | _ => false

/-- Models JavaScript `String.prototype.startsWith(p)`. -/
def jsStartsWith (s p : String) : Bool :=
  p.data.isPrefixOf s.data

/-- Models JavaScript `String.prototype.endsWith(p)`. -/
def jsEndsWith (s p : String) : Bool :=
  p.data.reverse.isPrefixOf s.data.reverse

/-- Models JavaScript `String.prototype.toLowerCase()` (ASCII range, the
only case the `/.txt$/i` regex needs). -/
def jsToLower (s : String) : String :=
  ⟨s.data.map Char.toLower⟩

/-- Models JavaScript `String.prototype.trim()`: strips leading and
trailing whitespace characters. -/
def jsTrim (s : String) : String :=
  ⟨((s.data.dropWhile Char.isWhitespace).reverse.dropWhile Char.isWhitespace).reverse⟩

/-- Counts maximal runs of non-whitespace characters; `inWord` records
whether the previous character belonged to a word. -/
def wordCountAux : List Char → Bool → Nat
  | [], _ => 0
  | c :: rest, inWord =>
      if c.isWhitespace then wordCountAux rest false
      else (if inWord then 0 else 1) + wordCountAux rest true

/-- Models JavaScript `str.split(/\s+/).length` on an already-trimmed
string: the number of whitespace-separated words. -/
def wordCount (s : String) : Nat :=
  wordCountAux s.data false

/-- Embeds `countTokens(content)`: whitespace-split word count of the
trimmed extracted text (0 when it trims to empty) plus 85 per
`image_url` part. -/
def countTokens (content : Content) : Nat :=
  let text := extractTextContent content
  let base :=
    if jsTrim text = "" then 0
    else wordCount (jsTrim text)
  let imageCount :=
    match content with
    | .parts ps =>
        (ps.filter fun p =>
          match p with
          | .imageUrl _ => true
          | _ => false).length
    | _ => 0
  base + imageCount * 85

/-- Embeds `countTokensForMessages(messages)`: sums `countTokens` over the
messages adding a fixed overhead of 2 per message. -/
def countTokensForMessages (messages : List Msg) : Nat :=
  messages.foldl (fun total m => total + countTokens m.content + 2) 0

example : countTokens (.str "hello world") = 2 := by decide
example : countTokens (.str "") = 0 := by decide
example : countTokensForMessages [⟨"user", .str "a b c"⟩] = 5 := by decide

/- ====================== system-message fold ====================== -/

/-- The loop body of `convertSystemToUserMessages`: a system message's
extracted text is appended to the accumulated `sys` string, preceded by a
newline only when `sys` is already non-empty (`sys += (sys ? "\n" : "") + t`);
any other message is appended to `rest`. -/
def convertFoldStep (acc : String × List Msg) (m : Msg) : String × List Msg :=
  if m.role = "system" then
    (acc.1 ++ (if acc.1 ≠ "" then "\n" else "") ++ extractTextContent m.content, acc.2)
  else
    (acc.1, acc.2 ++ [m])

/-- Embeds `convertSystemToUserMessages(messages)`: an empty list is
returned as-is; otherwise the system texts are folded into `sys` and, when
`sys` is truthy (non-empty), a synthetic leading user message carrying it
is prepended to the non-system messages; when `sys` is empty the
non-system messages alone are returned. -/
def convertSystemToUserMessages (messages : List Msg) : List Msg :=
  if messages = [] then messages
  else
    let acc := messages.foldl convertFoldStep ("", [])
    if acc.1 ≠ "" then ⟨"user", .str acc.1⟩ :: acc.2 else acc.2

/-- Embeds the call site's treatment of an absent `messages` field:
`convertSystemToUserMessages(undefined)` returns `messages ?? []`, i.e.
the empty list. -/
def convertSystemToUserMessagesOpt : Option (List Msg) → List Msg
  | none => []
  | some ms => convertSystemToUserMessages ms

/- ====================== history fold ====================== -/

/-- The mutable state of the history-building loop: the pushed turns, the
in-progress question and answer, and the two presence flags. -/
structure FoldSt where
  hist : List Turn
  curQ : String
  curA : String
  hasQ : Bool
  hasA : Bool
deriving DecidableEq, Repr

/-- One iteration of the history-building loop over `messages[i]`,
transcribed branch by branch from the source: a `user` message pushes the
completed turn and starts a new question when both sides are filled, else
newline-appends to an open question, else starts the question; an
`assistant` message sets the answer when a question is open, else
newline-appends to an open answer, else starts a turn with an empty
question; other roles are ignored. -/
def histStep (st : FoldSt) (msg : Msg) : FoldSt :=
  if msg.role = "user" then
    if st.hasQ && st.hasA then
      { hist := st.hist ++ [⟨st.curQ, st.curA⟩],
        curQ := extractTextContent msg.content, curA := "",
        hasQ := true, hasA := false }
    else if st.hasQ then
      { st with curQ := st.curQ ++ "\n" ++ extractTextContent msg.content }
    else
      { st with curQ := extractTextContent msg.content, hasQ := true }
  else if msg.role = "assistant" then
    if st.hasQ then
      { st with curA := extractTextContent msg.content, hasA := true }
    else if st.hasA then
      { st with curA := st.curA ++ "\n" ++ extractTextContent msg.content }
    else
      { hist := st.hist, curQ := "", curA := extractTextContent msg.content,
        hasQ := true, hasA := true }
  else st

/-- The flush after the loop: an open question is pushed as a final turn
whose answer defaults to the empty string when unset. -/
def histFlush (st : FoldSt) : List Turn :=
  if st.hasQ then st.hist ++ [⟨st.curQ, if st.hasA then st.curA else ""⟩]
  else st.hist

/-- Embeds the history construction of the chat-completions handler: the
loop runs over `messages[0 .. length-2]` (all but the last message) from
the empty state, then flushes. -/
def buildHistory (messages : List Msg) : List Turn :=
  histFlush (messages.dropLast.foldl histStep ⟨[], "", "", false, false⟩)

example : buildHistory [⟨"user", .str "Q"⟩, ⟨"assistant", .str "A"⟩] =
    [⟨"Q", ""⟩] := by decide
example : buildHistory [⟨"user", .str "Q"⟩, ⟨"assistant", .str "A1"⟩,
    ⟨"assistant", .str "A2"⟩, ⟨"user", .str "L"⟩] = [⟨"Q", "A2"⟩] := by decide

/- ====================== offload decisions ====================== -/

/-- Embeds the constant `MaxContextTokens = 2000`, the ceiling governing
the final live query. -/
def MaxContextTokens : Nat := 2000

/-- Embeds `up.UserFilename.replace(/\.txt$/i, "")`: removes one trailing
`.txt` extension, case-insensitively. -/
def stripTxtExtension (s : String) : String :=
  if jsEndsWith (jsToLower s) ".txt" then ⟨s.data.take (s.data.length - 4)⟩ else s

/-- Embeds the back-reference string substituted for an offloaded text:
`查看这个文件并且直接与文件内容进行聊天：` followed by the user-facing
filename with its `.txt` extension stripped, then `.txt`. -/
def backReference (userFilename : String) : String :=
  "查看这个文件并且直接与文件内容进行聊天：" ++ stripTxtExtension userFilename ++ ".txt"

/-- Embeds the offload decision of the history loop for one side of a
turn: the side is offloaded iff its text is truthy (non-empty) and
`countTokensForMessages([{role, content: text}]) >= 30`. -/
def offloadsTurnText (role : String) (text : String) : Bool :=
  text ≠ "" && 30 ≤ countTokensForMessages [⟨role, .str text⟩]

/-- Embeds the offload decision for the final live query:
`lastTokens > MaxContextTokens`, where `lastTokens` is
`countTokensForMessages([lastMessage])`. -/
def offloadsFinalQuery (lastMessage : Msg) : Bool :=
  MaxContextTokens < countTokensForMessages [lastMessage]

/- ====================== model-name mapping ====================== -/

/-- Embeds the static `modelMap` table, in source order. -/
def modelMap : List (String × String) :=
  [("deepseek-reasoner", "deepseek_r1"),
   ("deepseek-chat", "deepseek_v3"),
   ("o3-mini-high", "openai_o3_mini_high"),
   ("o1", "openai_o1"),
   ("gpt5", "gpt_5"),
   ("gpt5-mini", "gpt_5_mini"),
   ("gpt-4o", "gpt_4o"),
   ("gpt-4o-mini", "gpt_4o_mini"),
   ("claude-3-opus", "claude_3_opus"),
   ("claude-3.5-sonnet", "claude_3_5_sonnet"),
   ("gemini-1.5-pro", "gemini_1_5_pro"),
   ("gemini-2.0-flash", "gemini_2_flash"),
   ("llama-3.3-70b", "llama3_3_70b"),
   ("llama-4-maverick", "llama4_maverick"),
   ("llama-4-scout", "llama4_scout"),
   ("mistral-large-2", "mistral_large_2"),
   ("qwen3-235b", "qwen3_235b"),
   ("qwq-32b", "qwq_32b"),
   ("qwen-2.5-72b", "qwen2p5_72b"),
   ("qwen-2.5-coder-32b", "qwen2p5_coder_32b"),
   ("command-r-plus", "command_r_plus"),
   ("claude-3-7-sonnet", "claude_3_7_sonnet"),
   ("claude-3-7-sonnet-think", "claude_3_7_sonnet_thinking"),
   ("claude-4-sonnet", "claude_4_sonnet"),
   ("claude-4-sonnet-think", "claude_4_sonnet_thinking"),
   ("claude-4-opus", "claude_4_opus"),
   ("claude-4-1-opus", "claude_4_1_opus"),
   ("claude-4-opus-think", "claude_4_opus_thinking"),
   ("claude-4-1-opus-think", "claude_4_1_opus_thinking"),
   ("gemini-2.5-pro", "gemini_2_5_pro_preview"),
   ("o3", "openai_o3"),
   ("o3-pro", "openai_o3_pro"),
   ("o4-mini-high", "openai_o4_mini_high"),
   ("gpt-4.1", "gpt_4_1"),
   ("grok-4", "grok_4"),
   ("grok-3-beta", "grok_3"),
   ("grok-3-mini", "grok_3_mini"),
   ("grok-2", "grok_2"),
   ("nous-hermes-2", "nous_hermes_2")]

/-- Embeds `mapModelName(openAIModel)`: forward lookup, defaulting to
`deepseek_v3` on a miss (`modelMap[openAIModel] ?? "deepseek_v3"`). -/
def mapModelName (openAIModel : String) : String :=
  (modelMap.lookup openAIModel).getD "deepseek_v3"

/-- Embeds `getReverseModelMap()`: the value-to-key pairs in insertion
order.  A JavaScript object assignment overwrites, so a later duplicate
value would win; the reverse lookup below therefore searches this list
from the end. -/
def getReverseModelMap : List (String × String) :=
  modelMap.map fun p => (p.2, p.1)

/-- Reverse lookup in the object built by `getReverseModelMap`: the last
assignment for a value wins, i.e. the last matching pair. -/
def reverseMapLookup (internalId : String) : Option String :=
  getReverseModelMap.reverse.lookup internalId

/-- Embeds `reverseMap[mapModelName(originalModel)] ?? "deepseek-chat"`,
the model id reported back to the client in responses. -/
def modelForResp (originalModel : String) : String :=
  (reverseMapLookup (mapModelName originalModel)).getD "deepseek-chat"

/-- Embeds `isAgentModel(id)` with the env-configured allow-list made an
explicit parameter (`agentModelIDs.includes(id)`). -/
def isAgentModel (agentModelIDs : List String) (id : String) : Bool :=
  agentModelIDs.contains id

example : mapModelName "deepseek-reasoner" = "deepseek_r1" := by decide
example : modelForResp "unmapped-agent" = "deepseek-chat" := by decide
example : modelForResp "grok-4" = "grok-4" := by decide

/- ====================== SSE parsing ====================== -/

/-!
Both SSE consumers process the upstream body line by line (lines are
already assembled from network chunks by the buffering loop, which the
claims do not dispute).  On a line starting with `event:` the flag
`expectData` becomes "the line starts with `event: youChatToken`";
otherwise, when `expectData` holds and the line starts with `data:`, the
remainder after the first 6 characters (`line.slice(6)`) is fed to
`JSON.parse` and the `youChatToken` field is extracted, a parse failure
being swallowed; `expectData` is then cleared.

`JSON.parse(j)?.youChatToken` is a platform builtin, not code of this
repository; it is abstracted as a parse-oracle parameter
`jparse : String → Option String` returning `none` when `JSON.parse`
throws (the `catch` ignores the frame) and `some t` when it yields an
object whose `youChatToken` field reads back as `t` (the code's
`?? ""` default makes a missing field the same as `some ""`).
-/

/-- One step of `collectYouTokensStream`'s line loop; the state is
`(expectData, full)`. -/
def collectStep (jparse : String → Option String) (st : Bool × String)
    (line : String) : Bool × String :=
  if jsStartsWith line "event:" then
    (jsStartsWith line "event: youChatToken", st.2)
  else if st.1 && jsStartsWith line "data:" then
    (false, st.2 ++ ((jparse (line.drop 6)).getD ""))
  else st

/-- Embeds `collectYouTokensStream(resp)`: folds the line loop over the
upstream body's lines and returns the accumulated `full` string. -/
def collectYouTokens (jparse : String → Option String)
    (lines : List String) : String :=
  (lines.foldl (collectStep jparse) (false, "")).2

/-- The events enqueued by `streamOpenAIChunks` onto the outbound SSE
stream: the initial `:` keep-alive comment, a `chat.completion.chunk`
frame carrying a `delta.content` fragment (with the response model id and
`finish_reason: ""`), or the literal sentinel line `data: [DONE]`.  The
`done` constructor exists so that its absence from the relay's output can
be stated; the source never emits it. -/
inductive StreamEvt where
  | comment
  | chunk (model : String) (content : String)
  | done
deriving DecidableEq, Repr

/-- One step of `streamOpenAIChunks`'s line loop; the state is
`(expectData, emitted events)`.  A chunk is sent only when the extracted
token is truthy (`if (t) sendChunk(t)`). -/
def streamStep (jparse : String → Option String) (model : String)
    (st : Bool × List StreamEvt) (line : String) : Bool × List StreamEvt :=
  if jsStartsWith line "event:" then
    (jsStartsWith line "event: youChatToken", st.2)
  else if st.1 && jsStartsWith line "data:" then
    let t := (jparse (line.drop 6)).getD ""
    (false, if t ≠ "" then st.2 ++ [.chunk model t] else st.2)
  else st

/-- Embeds the event sequence `streamOpenAIChunks` enqueues for a given
upstream body: the `:` comment first, then the chunks produced by the
line loop; the stream is closed afterwards with no further event (the
source comments that no `[DONE]` is sent). -/
def streamOpenAIChunksModel (jparse : String → Option String)
    (model : String) (lines : List String) : List StreamEvt :=
  .comment :: (lines.foldl (streamStep jparse model) (false, [])).2

/-- Embeds the non-streaming OpenAI response object; `content` stands for
`choices[0].message.content` and `finish_reason` for
`choices[0].finish_reason`. -/
structure OpenAIChatResponse where
  object : String
  model : String
  content : String
  finish_reason : String
deriving DecidableEq, Repr

/-- Embeds the non-streaming response construction: one completion
object wrapping the collected text with `finish_reason: "stop"`. -/
def nonStreamResponse (modelForResponse : String) (full : String) :
    OpenAIChatResponse :=
  ⟨"chat.completion", modelForResponse, full, "stop"⟩

/- sample upstream body for the concrete scenarios: two youChatToken
frames carrying "Hel" and "lo", with realistic JSON payloads -/

/-- The JSON payload of the first sample token frame
(`{"youChatToken": "Hel"}` — braces escaped). -/
def samplePayloadHel : String := "\x7b\"youChatToken\": \"Hel\"\x7d"

/-- The JSON payload of the second sample token frame. -/
def samplePayloadLo : String := "\x7b\"youChatToken\": \"lo\"\x7d"

/-- Concrete parse oracle for the sample payloads: the result of
`JSON.parse(j)?.youChatToken ?? ""` on each of them, `none` (a throw)
elsewhere. -/
def jparseSample (j : String) : Option String :=
  if j = samplePayloadHel then some "Hel"
  else if j = samplePayloadLo then some "lo"
  else none

/-- The sample upstream SSE body as a line list: two token-event frames
carrying "Hel" then "lo". -/
def sampleBodyLines : List String :=
  ["event: youChatToken", "data: " ++ samplePayloadHel,
   "event: youChatToken", "data: " ++ samplePayloadLo]

/-- The sample body as a list of (event line, data line) frames; its
flattened line sequence is exactly `sampleBodyLines`. -/
def sampleFrames : List (String × String) :=
  [("event: youChatToken", "data: " ++ samplePayloadHel),
   ("event: youChatToken", "data: " ++ samplePayloadLo)]

example : collectYouTokens jparseSample sampleBodyLines = "Hello" := by decide
example : streamOpenAIChunksModel jparseSample "deepseek-chat" sampleBodyLines =
    [.comment, .chunk "deepseek-chat" "Hel", .chunk "deepseek-chat" "lo"] := by decide

/- ====================== offload effect model ====================== -/

/-- The outcome of one upstream `fetch` as far as the offload code can
observe it: a successful response carrying a parsed value, an HTTP
response with a non-ok status (and its body text), or a network-level
rejection with no status at all. -/
inductive FetchOutcome (α : Type) where
  | ok (val : α)
  | httpError (status : Nat) (body : String)
  | netError
deriving DecidableEq, Repr

/-- The pair of filenames a successful upload returns
(`{Filename, UserFilename}`). -/
structure UploadResult where
  Filename : String
  UserFilename : String
deriving DecidableEq, Repr

/-- The error that aborts an offload: an upload HTTP failure carrying the
upstream status (the source formats `resp.status` into the thrown
error), or an upload network failure carrying none. -/
inductive OffloadErr where
  | uploadHttp (status : Nat)
  | uploadNet
deriving DecidableEq, Repr

/-- Embeds `uploadFile`: a non-ok response makes it throw (the status is
baked into the thrown error), a rejected fetch propagates with no status, and a
success returns the two filenames. -/
def uploadFileModel : FetchOutcome UploadResult → Except OffloadErr UploadResult
  | .ok r => .ok r
  | .httpError s _ => .error (.uploadHttp s)
  | .netError => .error .uploadNet

/-- Embeds one offload step of the history loop:
`await getNonce(dsToken).catch(() => {})` discards the nonce outcome
entirely, then `await uploadFile(...)` either throws (aborting the whole
request, since no caller catches it) or yields the filenames, and the
turn text is replaced by the back-reference. -/
def offloadSideModel (_nonceOutcome : FetchOutcome String)
    (uploadOutcome : FetchOutcome UploadResult) (_text : String) :
    Except OffloadErr String :=
  match uploadFileModel uploadOutcome with
  | .error e => .error e
  | .ok up => .ok (backReference up.UserFilename)

/-- Embeds the HTTP status with which an offload abort reaches the
client.  Modelled from the spec: the serving runtime (`Deno.serve`) is
not part of the repository source; per the spec's propagation policy the
failure is surfaced "with the originating status code where one exists,
else 500", matching the runtime's 500 default for an unhandled
exception. -/
def surfacedStatus : OffloadErr → Nat
  | .uploadHttp s => s
  | .uploadNet => 500

/-- One planned offload operation: the fetch outcomes its nonce call and
upload call would observe, and the turn text to offload. -/
structure OffloadOp where
  nonceOutcome : FetchOutcome String
  uploadOutcome : FetchOutcome UploadResult
  text : String

/-- Runs the offload steps of one request in order; the first upload
failure throws out of the loop, abandoning the remaining steps (no retry,
no skip). -/
def runOffloads : List OffloadOp → Except OffloadErr (List String)
  | [] => .ok []
  | op :: rest =>
      match offloadSideModel op.nonceOutcome op.uploadOutcome op.text with
      | .error e => .error e
      | .ok r =>
          match runOffloads rest with
          | .error e => .error e
          | .ok rs => .ok (r :: rs)

/- ====================== handler prelude (last-message access) ====== -/

/-- Embeds `countTokensForMessages` as applied to the possibly-undefined
`lastMessage`: reading `m.content` off `undefined` raises a `TypeError`,
modelled as `Except.error ()`. -/
def countTokensForMessagesJS : List (Option Msg) → Except Unit Nat
  | [] => .ok 0
  | none :: _ => .error ()
  | some m :: rest =>
      match countTokensForMessagesJS rest with
      | .error e => .error e
      | .ok t => .ok (countTokens m.content + 2 + t)

/-- Embeds the chat-completions handler from after JSON parsing up to the
computation of `lastTokens`: fold system messages, build the history
(over all but the last message), then read
`messages[messages.length - 1]` — `undefined` when the list is empty —
and feed it to `countTokensForMessages`.  An `Except.error ()` models the
uncaught `TypeError` thrown there; on success the built history and
`lastTokens` are returned.  (The history offload loop, the only upstream
interaction scheduled before this point, runs over the returned history,
so an empty history means the crash is reached with no upstream call.) -/
def chatCompletionsPrelude (messagesField : Option (List Msg)) :
    Except Unit (List Turn × Nat) :=
  let msgs := convertSystemToUserMessagesOpt messagesField
  let hist := buildHistory msgs
  let lastMessage : Option Msg := msgs.get? (msgs.length - 1)
  match countTokensForMessagesJS [lastMessage] with
  | .error e => .error e
  | .ok lastTokens => .ok (hist, lastTokens)

/- ====================== alternating-history machinery ====================== -/

/-- The message list of an exactly-alternating conversation: one `user`
message then one `assistant` message per pair, in order. -/
def msgsOfPairs : List (String × String) → List Msg
  | [] => []
  | (q, r) :: rest =>
      ⟨"user", .str q⟩ :: ⟨"assistant", .str r⟩ :: msgsOfPairs rest

/-- The turn the history fold makes of a completed question/answer pair. -/
def pairTurn (p : String × String) : Turn :=
  ⟨p.1, p.2⟩

/-- The state of the history fold after consuming whole user/assistant
pairs while already holding a completed pair `(q, r)`: each further pair
pushes the held one. -/
def altFoldSpec (hist : List Turn) (q r : String) :
    List (String × String) → FoldSt
  | [] => ⟨hist, q, r, true, true⟩
  | (q2, r2) :: rest => altFoldSpec (hist ++ [⟨q, r⟩]) q2 r2 rest

lemma msgsOfPairs_append (l1 l2 : List (String × String)) :
    msgsOfPairs (l1 ++ l2) = msgsOfPairs l1 ++ msgsOfPairs l2 := by
  induction l1 with
  | nil => simp [msgsOfPairs]
  | cons p rest ih => cases p; simp [msgsOfPairs, ih]

lemma histStep_user_full (st : FoldSt) (q : String) (hq : st.hasQ = true)
    (ha : st.hasA = true) :
    histStep st ⟨"user", .str q⟩ =
      ⟨st.hist ++ [⟨st.curQ, st.curA⟩], q, "", true, false⟩ := by
  simp [histStep, hq, ha, extractTextContent]

lemma histStep_assistant_openQ (st : FoldSt) (r : String) (hq : st.hasQ = true) :
    histStep st ⟨"assistant", .str r⟩ =
      { st with curA := r, hasA := true } := by
  simp [histStep, hq, extractTextContent]

lemma foldl_msgsOfPairs_full (ps : List (String × String)) :
    ∀ (hist : List Turn) (q r : String),
      (msgsOfPairs ps).foldl histStep ⟨hist, q, r, true, true⟩ =
        altFoldSpec hist q r ps := by
  induction ps with
  | nil => intro hist q r; simp [msgsOfPairs, altFoldSpec]
  | cons p rest ih =>
      intro hist q r
      obtain ⟨q2, r2⟩ := p
      show (⟨"user", .str q2⟩ :: ⟨"assistant", .str r2⟩ :: msgsOfPairs rest).foldl
          histStep ⟨hist, q, r, true, true⟩ = _
      rw [List.foldl_cons, histStep_user_full _ _ rfl rfl, List.foldl_cons,
        histStep_assistant_openQ _ _ rfl]
      exact ih (hist ++ [⟨q, r⟩]) q2 r2

lemma altFoldSpec_flush_user (ps : List (String × String)) :
    ∀ (hist : List Turn) (q r qn : String),
      histFlush (histStep (altFoldSpec hist q r ps) ⟨"user", .str qn⟩) =
        hist ++ ⟨q, r⟩ :: ps.map pairTurn ++ [⟨qn, ""⟩] := by
  induction ps with
  | nil =>
      intro hist q r qn
      rw [altFoldSpec, histStep_user_full _ _ rfl rfl]
      simp [histFlush]
  | cons p rest ih =>
      intro hist q r qn
      obtain ⟨q2, r2⟩ := p
      rw [altFoldSpec, ih]
      simp [pairTurn]

lemma buildHistory_pairs_concat (ps : List (String × String)) (qn rn : String) :
    buildHistory (msgsOfPairs (ps ++ [(qn, rn)])) =
      ps.map pairTurn ++ [⟨qn, ""⟩] := by
  have hsplit : msgsOfPairs (ps ++ [(qn, rn)]) =
      (msgsOfPairs ps ++ [⟨"user", .str qn⟩]) ++ [⟨"assistant", .str rn⟩] := by
    rw [msgsOfPairs_append]; simp [msgsOfPairs]
  rw [buildHistory, hsplit, List.dropLast_concat, List.foldl_append]
  cases ps with
  | nil => simp [msgsOfPairs, histStep, histFlush, extractTextContent]
  | cons p rest =>
      obtain ⟨q1, r1⟩ := p
      show histFlush ((msgsOfPairs ((q1, r1) :: rest)).foldl histStep
        ⟨[], "", "", false, false⟩ |> (List.foldl histStep · [⟨"user", .str qn⟩])) = _
      rw [show (msgsOfPairs ((q1, r1) :: rest)).foldl histStep ⟨[], "", "", false, false⟩
            = (msgsOfPairs rest).foldl histStep ⟨[], q1, r1, true, true⟩ by
          simp [msgsOfPairs, histStep, extractTextContent]]
      rw [foldl_msgsOfPairs_full]
      show histFlush (histStep (altFoldSpec [] q1 r1 rest) ⟨"user", .str qn⟩) = _
      rw [altFoldSpec_flush_user]
      simp [pairTurn]

/- ====================== SSE frame machinery ====================== -/

/-- An upstream SSE frame as the relay's line loop classifies it: an
`event:` line followed by one `data:` line (the data line must not itself
look like an `event:` line). -/
def wfFrame (f : String × String) : Prop :=
  jsStartsWith f.1 "event:" = true ∧ jsStartsWith f.2 "event:" = false ∧
    jsStartsWith f.2 "data:" = true

instance (f : String × String) : Decidable (wfFrame f) := by
  unfold wfFrame; infer_instance

/-- The raw line sequence of a frame list: each frame contributes its
`event:` line then its `data:` line. -/
def frameLines (fs : List (String × String)) : List String :=
  (fs.map fun f => [f.1, f.2]).flatten

/-- The token fragment a frame contributes: for a frame whose event line
starts with `event: youChatToken`, the oracle's reading of the data
line's payload (`line.slice(6)`), defaulted to `""`; for any other frame,
nothing. -/
def frameToken (jparse : String → Option String) (f : String × String) : String :=
  if jsStartsWith f.1 "event: youChatToken" then (jparse (f.2.drop 6)).getD ""
  else ""

/-- Plain concatenation of a list of strings, in order. -/
def joinTokens : List String → String
  | [] => ""
  | t :: ts => t ++ joinTokens ts

lemma collectStep_frame (jparse : String → Option String) (acc : String)
    (f : String × String) (hf : wfFrame f) :
    [f.1, f.2].foldl (collectStep jparse) (false, acc) =
      (false, acc ++ frameToken jparse f) := by
  obtain ⟨h1, h2, h3⟩ := hf
  rw [List.foldl_cons, show collectStep jparse (false, acc) f.1 =
    (jsStartsWith f.1 "event: youChatToken", acc) by simp [collectStep, h1]]
  by_cases htag : jsStartsWith f.1 "event: youChatToken" = true
  · simp [collectStep, h2, h3, htag, frameToken]
  · simp only [Bool.not_eq_true] at htag
    simp [collectStep, h2, h3, htag, frameToken]

lemma collect_frames_aux (jparse : String → Option String)
    (fs : List (String × String)) :
    ∀ acc : String, (∀ f ∈ fs, wfFrame f) →
      (frameLines fs).foldl (collectStep jparse) (false, acc) =
        (false, acc ++ joinTokens (fs.map (frameToken jparse))) := by
  induction fs with
  | nil => intro acc _; simp [frameLines, joinTokens]
  | cons f rest ih =>
      intro acc h
      have hf := h f (by simp)
      have hrest : ∀ g ∈ rest, wfFrame g := fun g hg => h g (by simp [hg])
      rw [show frameLines (f :: rest) = [f.1, f.2] ++ frameLines rest by
          simp [frameLines]]
      rw [List.foldl_append, collectStep_frame jparse acc f hf, ih _ hrest]
      simp [joinTokens, String.append_assoc]

/-- The contributions of the non-token-tagged frames are empty, so the
concatenation over all frames equals the concatenation over the
token-tagged ones only. -/
lemma joinTokens_filter_tagged (jparse : String → Option String)
    (fs : List (String × String)) :
    joinTokens (fs.map (frameToken jparse)) =
      joinTokens (((fs.filter fun f =>
        jsStartsWith f.1 "event: youChatToken").map
          fun f => (jparse (f.2.drop 6)).getD "")) := by
  induction fs with
  | nil => rfl
  | cons f rest ih =>
      by_cases htag : jsStartsWith f.1 "event: youChatToken" = true
      · simp only [List.map_cons, List.filter_cons, htag, if_pos]
        simp [joinTokens, frameToken, htag, ih]
      · simp only [Bool.not_eq_true] at htag
        simp [joinTokens, frameToken, htag, ih, List.filter_cons]

lemma streamStep_frame (jparse : String → Option String) (model : String)
    (acc : List StreamEvt) (f : String × String) (hf : wfFrame f) :
    [f.1, f.2].foldl (streamStep jparse model) (false, acc) =
      (false, acc ++ (if frameToken jparse f ≠ ""
        then [.chunk model (frameToken jparse f)] else [])) := by
  obtain ⟨h1, h2, h3⟩ := hf
  rw [List.foldl_cons, show streamStep jparse model (false, acc) f.1 =
    (jsStartsWith f.1 "event: youChatToken", acc) by simp [streamStep, h1]]
  by_cases htag : jsStartsWith f.1 "event: youChatToken" = true
  · by_cases ht : (jparse (f.2.drop 6)).getD "" ≠ ""
    · simp [streamStep, h2, h3, htag, frameToken, ht]
    · simp [streamStep, h2, h3, htag, frameToken, ht]
  · simp only [Bool.not_eq_true] at htag
    simp [streamStep, h2, h3, htag, frameToken]

lemma stream_frames_aux (jparse : String → Option String) (model : String)
    (fs : List (String × String)) :
    ∀ acc : List StreamEvt, (∀ f ∈ fs, wfFrame f) →
      (frameLines fs).foldl (streamStep jparse model) (false, acc) =
        (false, acc ++ ((fs.map (frameToken jparse)).filter
          fun t => t ≠ "").map (StreamEvt.chunk model)) := by
  induction fs with
  | nil => intro acc _; simp [frameLines]
  | cons f rest ih =>
      intro acc h
      have hf := h f (by simp)
      have hrest : ∀ g ∈ rest, wfFrame g := fun g hg => h g (by simp [hg])
      rw [show frameLines (f :: rest) = [f.1, f.2] ++ frameLines rest by
          simp [frameLines]]
      rw [List.foldl_append, streamStep_frame jparse model acc f hf, ih _ hrest]
      by_cases ht : frameToken jparse f ≠ ""
      · simp [ht, List.filter_cons]
      · simp only [ne_eq, Decidable.not_not] at ht
        simp [ht, List.filter_cons]


/-- A history-turn text of exactly 29 whitespace-separated words: its
`countTokens` (the spec's `estimateTokens` heuristic) is 29, one below
the advertised history threshold of 30. -/
def sampleTurnText29 : String :=
  "a a a a a a a a a a a a a a a a a a a a a a a a a a a a a"

/-- A final-query content whose `countTokens` is exactly 1999 (one below
the advertised ceiling of 2000): 23 image parts at 85 tokens each plus a
44-word text part. -/
def sampleFinalContent1999 : Content :=
  .parts (List.replicate 23 (.imageUrl "http://host/img.png") ++
    [.text "w w w w w w w w w w w w w w w w w w w w w w w w w w w w w w w w w w w w w w w w w w w w"])

/- ====================== claim theorems ====================== -/

/-- Claim C8: for every external model id `x` that is a key of the
mapping table, the reverse lookup of the forward lookup returns `x`
(`toExternal(toUpstream(x)) == x`, i.e. `modelForResp x = x`); forward
lookup of an unmapped id falls back to the default upstream model
`deepseek_v3`, and reverse lookup of an unmapped internal id falls back
to the default external id `deepseek-chat`. -/
theorem claim_C8_roundtrip_and_defaults :
    (∀ x ∈ modelMap.map Prod.fst, modelForResp x = x)
    ∧ (∀ x : String, modelMap.lookup x = none → mapModelName x = "deepseek_v3")
    ∧ (∀ y : String, getReverseModelMap.reverse.lookup y = none →
        (reverseMapLookup y).getD "deepseek-chat" = "deepseek-chat") := by
  refine ⟨by decide, ?_, ?_⟩
  · intro x h
    simp [mapModelName, h]
  · intro y h
    simp [reverseMapLookup, h]

/-- Witness for C8 at concrete inputs: the round trip at the table key
`"deepseek-reasoner"`, and both fallbacks at the unmapped id
`"no-such-model"`. -/
theorem claim_C8_roundtrip_and_defaults_witness :
    modelForResp "deepseek-reasoner" = "deepseek-reasoner"
    ∧ mapModelName "no-such-model" = "deepseek_v3"
    ∧ (reverseMapLookup "no-such-model").getD "deepseek-chat" = "deepseek-chat" :=
  ⟨claim_C8_roundtrip_and_defaults.1 "deepseek-reasoner" (by decide),
   claim_C8_roundtrip_and_defaults.2.1 "no-such-model" (by decide),
   claim_C8_roundtrip_and_defaults.2.2 "no-such-model" (by decide)⟩

/-- Claim C9: a POST chat-completions request that passes auth and JSON
parsing but whose `messages` field is absent, an empty array, or only
system messages with empty extracted text reaches
`countTokensForMessages([lastMessage])` with `lastMessage` undefined and
raises a `TypeError` (the `Except.error`), instead of a 400 validation
response; the built history is empty on these inputs, so the crash
precedes every upstream call (the offload loop, the first upstream
interaction, iterates over that history). -/
theorem claim_C9_undefined_last_message :
    chatCompletionsPrelude none = .error ()
    ∧ chatCompletionsPrelude (some []) = .error ()
    ∧ chatCompletionsPrelude (some [⟨"system", .str ""⟩]) = .error ()
    ∧ buildHistory (convertSystemToUserMessagesOpt none) = []
    ∧ buildHistory (convertSystemToUserMessagesOpt (some [])) = []
    ∧ buildHistory (convertSystemToUserMessagesOpt (some [⟨"system", .str ""⟩])) = [] := by
  exact ⟨rfl, rfl, rfl, rfl, rfl, rfl⟩

lemma streamStep_foldl_chunk_model (jparse : String → Option String)
    (model : String) (lines : List String) :
    ∀ (st : Bool × List StreamEvt),
      (∀ m c, StreamEvt.chunk m c ∈ st.2 → m = model) →
      ∀ m c, StreamEvt.chunk m c ∈ (lines.foldl (streamStep jparse model) st).2 →
        m = model := by
  induction lines with
  | nil => intro st h m c hm; exact h m c hm
  | cons line rest ih =>
      intro st h m c hm
      refine ih (streamStep jparse model st line) ?_ m c hm
      intro m' c' hm'
      simp only [streamStep] at hm'
      split at hm'
      · exact h m' c' hm'
      · split at hm'
        · split at hm'
          · rcases List.mem_append.mp hm' with hl | hr
            · exact h m' c' hl
            · simp at hr
              exact hr.1
          · exact h m' c' hm'
        · exact h m' c' hm'

/-- Every `chat.completion.chunk` the streaming relay emits carries the
`modelForResp` it was invoked with. -/
lemma streamModel_chunks_carry_model (jparse : String → Option String)
    (model : String) (lines : List String) (m c : String)
    (hm : StreamEvt.chunk m c ∈ streamOpenAIChunksModel jparse model lines) :
    m = model := by
  unfold streamOpenAIChunksModel at hm
  rcases List.mem_cons.mp hm with h | h
  · exact absurd h (by simp)
  · exact streamStep_foldl_chunk_model jparse model lines (false, [])
      (by intro m' c' h'; simp at h') m c h

/-- Claim C10: when the requested model id is in the agent allow-list but
is not a key of the mapping table, the model reported back to the client
— `modelForResp`, used both for the non-streaming completion object and
for every streamed chunk — is the default external id `"deepseek-chat"`,
not the requested agent id, because it is computed as the reverse map of
`mapModelName`'s fallback. -/
theorem claim_C10_agent_model_reported_as_default
    (agentModelIDs : List String) (id full : String)
    (_hagent : isAgentModel agentModelIDs id = true)
    (hunmapped : modelMap.lookup id = none) :
    modelForResp id = "deepseek-chat"
    ∧ (nonStreamResponse (modelForResp id) full).model = "deepseek-chat"
    ∧ (∀ (jparse : String → Option String) (lines : List String) (m c : String),
        StreamEvt.chunk m c ∈
          streamOpenAIChunksModel jparse (modelForResp id) lines →
        m = "deepseek-chat") := by
  have hfwd : mapModelName id = "deepseek_v3" := by
    simp [mapModelName, hunmapped]
  have hresp : modelForResp id = "deepseek-chat" := by
    rw [modelForResp, hfwd]; decide
  refine ⟨hresp, by simp [nonStreamResponse, hresp], ?_⟩
  intro jparse lines m c hm
  rw [hresp] at hm
  exact streamModel_chunks_carry_model jparse "deepseek-chat" lines m c hm

/-- Witness for C10 at the concrete agent id `"custom-agent"` (allow-list
`["custom-agent"]`), which is not a mapping-table key. -/
theorem claim_C10_agent_model_reported_as_default_witness :
    modelForResp "custom-agent" = "deepseek-chat"
    ∧ (nonStreamResponse (modelForResp "custom-agent") "hi").model = "deepseek-chat" :=
  ⟨(claim_C10_agent_model_reported_as_default ["custom-agent"] "custom-agent" "hi"
      (by decide) (by decide)).1,
   (claim_C10_agent_model_reported_as_default ["custom-agent"] "custom-agent" "hi"
      (by decide) (by decide)).2.1⟩

/-- Claim C7: during offload, the nonce-fetch outcome is swallowed — the
result is the same whatever it was, and an upload success always
proceeds to the back-reference substitution — while an upload HTTP
failure aborts the whole request at the first failing step (no retry, no
skip) and is surfaced with the originating upstream status where one
exists, else 500. -/
theorem claim_C7_nonce_swallowed_upload_fatal :
    (∀ ops : List OffloadOp,
      runOffloads ops =
        runOffloads (ops.map fun op => ⟨.netError, op.uploadOutcome, op.text⟩))
    ∧ (∀ (n : FetchOutcome String) (u : UploadResult) (t : String),
        offloadSideModel n (.ok u) t = .ok (backReference u.UserFilename))
    ∧ (∀ (n : FetchOutcome String) (s : Nat) (b t : String),
        offloadSideModel n (.httpError s b) t = .error (.uploadHttp s)
        ∧ surfacedStatus (.uploadHttp s) = s)
    ∧ (∀ (n : FetchOutcome String) (t : String),
        offloadSideModel n .netError t = .error .uploadNet
        ∧ surfacedStatus .uploadNet = 500)
    ∧ (∀ (pre : List OffloadOp) (n : FetchOutcome String) (s : Nat)
        (b t : String) (rest : List OffloadOp),
        (∀ op ∈ pre, ∃ u, op.uploadOutcome = .ok u) →
        runOffloads (pre ++ ⟨n, .httpError s b, t⟩ :: rest) =
          .error (.uploadHttp s)) := by
  refine ⟨?_, fun _ _ _ => rfl, fun _ _ _ _ => ⟨rfl, rfl⟩, fun _ _ => ⟨rfl, rfl⟩, ?_⟩
  · intro ops
    induction ops with
    | nil => rfl
    | cons op rest ih =>
        simp only [List.map_cons, runOffloads, ih]
        rfl
  · intro pre n s b t rest h
    induction pre with
    | nil => rfl
    | cons op pre' ih =>
        obtain ⟨u, hu⟩ := h op (by simp)
        have hrest : ∀ op' ∈ pre', ∃ u', op'.uploadOutcome = .ok u' :=
          fun op' h' => h op' (by simp [h'])
        have ih' := ih hrest
        simp only [List.cons_append, runOffloads, hu, offloadSideModel,
          uploadFileModel, List.append_eq, ih']

/-- Witness for C7: a nonce network failure is ignored while the upload
succeeds; and a request whose first offload upload answers HTTP 403
aborts with that status (a later planned operation notwithstanding),
while an upload network failure surfaces as 500. -/
theorem claim_C7_nonce_swallowed_upload_fatal_witness :
    offloadSideModel .netError (.ok ⟨"f1", "notes.txt"⟩) "turn text" =
      .ok (backReference "notes.txt")
    ∧ runOffloads [⟨.ok "uuid", .httpError 403 "denied", "turn text"⟩,
        ⟨.ok "uuid", .ok ⟨"f2", "x.txt"⟩, "later"⟩] = .error (.uploadHttp 403)
    ∧ surfacedStatus (.uploadHttp 403) = 403
    ∧ surfacedStatus .uploadNet = 500 :=
  ⟨claim_C7_nonce_swallowed_upload_fatal.2.1 .netError ⟨"f1", "notes.txt"⟩ "turn text",
   claim_C7_nonce_swallowed_upload_fatal.2.2.2.2 [] (.ok "uuid") 403 "denied"
     "turn text" [⟨.ok "uuid", .ok ⟨"f2", "x.txt"⟩, "later"⟩] (by intro op h; simp at h),
   (claim_C7_nonce_swallowed_upload_fatal.2.2.1 .netError 403 "denied" "t").2,
   (claim_C7_nonce_swallowed_upload_fatal.2.2.2.1 .netError "t").2⟩

/-- Claim C5: in non-streaming mode the relay concatenates, in order,
exactly the oracle-extracted token fields of the frames whose event line
is tagged `youChatToken` (all other event tags ignored; a parse failure
on a data line contributes the empty string, i.e. zero tokens), wraps the
result in a single completion object with `finish_reason: "stop"`, and on
the two-frame "Hel"/"lo" body `choices[0].message.content` is `"Hello"`. -/
theorem claim_C5_nonstreaming_concatenation :
    (∀ (jparse : String → Option String) (fs : List (String × String)),
      (∀ f ∈ fs, wfFrame f) →
      collectYouTokens jparse (frameLines fs) =
        joinTokens ((fs.filter fun f =>
          jsStartsWith f.1 "event: youChatToken").map
            fun f => (jparse (f.2.drop 6)).getD ""))
    ∧ (∀ model full : String, (nonStreamResponse model full).finish_reason = "stop")
    ∧ (nonStreamResponse (modelForResp "deepseek-chat")
        (collectYouTokens jparseSample sampleBodyLines)).content = "Hello"
    ∧ (nonStreamResponse (modelForResp "deepseek-chat")
        (collectYouTokens jparseSample sampleBodyLines)).object = "chat.completion" := by
  refine ⟨?_, fun _ _ => rfl, by decide, rfl⟩
  intro jparse fs h
  show ((frameLines fs).foldl (collectStep jparse) (false, "")).2 = _
  rw [collect_frames_aux jparse fs "" h]
  show "" ++ _ = _
  rw [String.empty_append]
  exact joinTokens_filter_tagged jparse fs

/-- Witness for C5: the frame-level characterization instantiated at the
concrete two-frame "Hel"/"lo" body. -/
theorem claim_C5_nonstreaming_concatenation_witness :
    collectYouTokens jparseSample (frameLines sampleFrames) =
      joinTokens ((sampleFrames.filter fun f =>
        jsStartsWith f.1 "event: youChatToken").map
          fun f => (jparseSample (f.2.drop 6)).getD "") :=
  claim_C5_nonstreaming_concatenation.1 jparseSample sampleFrames (by decide)

/-- Counterexample to claim C1 as stated: on the upstream body of two
token-event frames carrying "Hel" then "lo", the relay's emitted event
sequence is the `:` keep-alive comment followed by the two content
chunks, and it neither ends with nor ever contains the `data: [DONE]`
sentinel (the source comments that `[DONE]` is deliberately not sent). -/
theorem claim_C1_counterexample_no_done_sentinel :
    streamOpenAIChunksModel jparseSample "deepseek-chat" sampleBodyLines =
      [.comment, .chunk "deepseek-chat" "Hel", .chunk "deepseek-chat" "lo"]
    ∧ (streamOpenAIChunksModel jparseSample "deepseek-chat" sampleBodyLines).getLast?
        ≠ some .done
    ∧ StreamEvt.done ∉
        streamOpenAIChunksModel jparseSample "deepseek-chat" sampleBodyLines :=
  ⟨by decide, by decide, by decide⟩

/-- Claim C1 as amended: in streaming mode the relay emits the `:`
keep-alive comment and then exactly one `chat.completion.chunk` per
upstream token-event frame whose extracted token fragment is non-empty,
carrying that fragment as `delta.content`, in arrival order and without
coalescing adjacent tokens; after the upstream stream ends it closes the
outbound stream without ever emitting the `data: [DONE]` sentinel. -/
theorem claim_C1_streaming_chunks_no_done (jparse : String → Option String)
    (model : String) (fs : List (String × String)) (h : ∀ f ∈ fs, wfFrame f) :
    streamOpenAIChunksModel jparse model (frameLines fs) =
      .comment :: ((fs.map (frameToken jparse)).filter fun t => t ≠ "").map
        (StreamEvt.chunk model)
    ∧ StreamEvt.done ∉ streamOpenAIChunksModel jparse model (frameLines fs) := by
  have heq : streamOpenAIChunksModel jparse model (frameLines fs) =
      .comment :: ((fs.map (frameToken jparse)).filter fun t => t ≠ "").map
        (StreamEvt.chunk model) := by
    show StreamEvt.comment ::
      ((frameLines fs).foldl (streamStep jparse model) (false, [])).2 = _
    rw [stream_frames_aux jparse model fs [] h]
    simp
  refine ⟨heq, ?_⟩
  rw [heq]
  simp

/-- Witness for the amended C1 at the concrete two-frame "Hel"/"lo"
body. -/
theorem claim_C1_streaming_chunks_no_done_witness :
    streamOpenAIChunksModel jparseSample "deepseek-chat" (frameLines sampleFrames) =
      .comment :: ((sampleFrames.map (frameToken jparseSample)).filter
        fun t => t ≠ "").map (StreamEvt.chunk "deepseek-chat")
    ∧ StreamEvt.done ∉
        streamOpenAIChunksModel jparseSample "deepseek-chat" (frameLines sampleFrames) :=
  claim_C1_streaming_chunks_no_done jparseSample "deepseek-chat" sampleFrames (by decide)

lemma convertFold_sys_const (messages : List Msg)
    (h : ∀ m ∈ messages, m.role ≠ "system") :
    ∀ (s : String) (acc : List Msg),
      messages.foldl convertFoldStep (s, acc) = (s, acc ++ messages) := by
  induction messages with
  | nil => intro s acc; simp
  | cons m rest ih =>
      intro s acc
      have hm : m.role ≠ "system" := h m (by simp)
      have hrest : ∀ m' ∈ rest, m'.role ≠ "system" := fun m' h' => h m' (by simp [h'])
      rw [List.foldl_cons, show convertFoldStep (s, acc) m = (s, acc ++ [m]) by
        simp [convertFoldStep, hm]]
      rw [ih hrest]
      simp

lemma convertFold_rest_is_filter (messages : List Msg) :
    ∀ (s : String) (acc : List Msg),
      (messages.foldl convertFoldStep (s, acc)).2 =
        acc ++ messages.filter fun m => m.role ≠ "system" := by
  induction messages with
  | nil => intro s acc; simp
  | cons m rest ih =>
      intro s acc
      by_cases hm : m.role = "system"
      · rw [List.foldl_cons, show convertFoldStep (s, acc) m =
          (s ++ (if s ≠ "" then "\n" else "") ++ extractTextContent m.content, acc) by
            simp [convertFoldStep, hm]]
        rw [ih]
        simp [List.filter_cons, hm]
      · rw [List.foldl_cons, show convertFoldStep (s, acc) m = (s, acc ++ [m]) by
          simp [convertFoldStep, hm]]
        rw [ih]
        simp [List.filter_cons, hm]

/-- Counterexample to claim C6 as stated: the list consisting of a single
system message with empty extracted text contains a system message, yet
`convertSystemToUserMessages` returns the empty list — no synthetic
leading user message is produced (the source tests the accumulated text
for truthiness, and the empty string is falsy). -/
theorem claim_C6_counterexample_empty_system :
    convertSystemToUserMessages [⟨"system", .str ""⟩] = []
    ∧ (([⟨"system", Content.str ""⟩] : List Msg).any fun m => m.role == "system") = true
    ∧ convertSystemToUserMessages [⟨"system", .str ""⟩] ≠
        [⟨"user", .str ""⟩] :=
  ⟨by decide, by decide, by decide⟩

/-- Claim C6 as amended: the system fold concatenates the system texts in
original order, inserting a newline before a text only when the
accumulator is already non-empty, and prepends a synthetic leading user
message carrying that concatenation exactly when the concatenation is
non-empty, followed by the non-system messages in original order (when
the concatenation is empty — in particular when every system text is
empty — only the non-system messages are returned); a list with no
system message is returned unchanged; the concrete A/B/C/D example and
its history hold as claimed. -/
theorem claim_C6_system_fold (messages : List Msg) :
    ((∀ m ∈ messages, m.role ≠ "system") →
      convertSystemToUserMessages messages = messages)
    ∧ ((messages.foldl convertFoldStep ("", [])).1 ≠ "" →
      convertSystemToUserMessages messages =
        ⟨"user", .str (messages.foldl convertFoldStep ("", [])).1⟩ ::
          messages.filter fun m => m.role ≠ "system")
    ∧ convertSystemToUserMessages
        [⟨"system", .str "A"⟩, ⟨"user", .str "B"⟩,
         ⟨"assistant", .str "C"⟩, ⟨"user", .str "D"⟩] =
        [⟨"user", .str "A"⟩, ⟨"user", .str "B"⟩,
         ⟨"assistant", .str "C"⟩, ⟨"user", .str "D"⟩]
    ∧ buildHistory
        [⟨"user", .str "A"⟩, ⟨"user", .str "B"⟩,
         ⟨"assistant", .str "C"⟩, ⟨"user", .str "D"⟩] =
        [⟨"A\nB", "C"⟩] := by
  refine ⟨?_, ?_, by decide, by decide⟩
  · intro h
    cases hm : messages with
    | nil => rfl
    | cons m rest =>
        rw [← hm, convertSystemToUserMessages]
        rw [if_neg (by simp [hm])]
        rw [convertFold_sys_const messages h "" []]
        simp
  · intro h
    have hne : messages ≠ [] := by
      intro hnil
      rw [hnil] at h
      exact h rfl
    rw [convertSystemToUserMessages, if_neg hne]
    simp only [h, if_pos, ne_eq, not_false_iff]
    rw [convertFold_rest_is_filter messages "" []]
    simp [h]

/-- Witness for the amended C6: a list with no system message is returned
unchanged, and a non-empty system text produces the synthetic leading
user message followed by the filtered rest. -/
theorem claim_C6_system_fold_witness :
    convertSystemToUserMessages [⟨"user", .str "B"⟩] = [⟨"user", .str "B"⟩]
    ∧ convertSystemToUserMessages [⟨"system", .str "A"⟩, ⟨"user", .str "B"⟩] =
        ⟨"user", .str ([⟨"system", Content.str "A"⟩,
          ⟨"user", Content.str "B"⟩].foldl convertFoldStep ("", [])).1⟩ ::
          [⟨"system", Content.str "A"⟩, ⟨"user", Content.str "B"⟩].filter
            (fun m => m.role ≠ "system") :=
  ⟨(claim_C6_system_fold [⟨"user", .str "B"⟩]).1 (by decide),
   (claim_C6_system_fold [⟨"system", .str "A"⟩, ⟨"user", .str "B"⟩]).2.1 (by decide)⟩

lemma countTokensForMessages_singleton (m : Msg) :
    countTokensForMessages [m] = countTokens m.content + 2 := by
  simp [countTokensForMessages]

/-- Counterexample to claim C2 as stated: a history turn whose estimated
token count (`countTokens`, the spec's `estimateTokens`) is 29 — exactly
threshold − 1 — IS offloaded, because the source compares
`countTokensForMessages([message])`, which adds a per-message overhead of
2, against 30; likewise a final query with estimate 1999, below the 2000
ceiling, IS offloaded, because the source compares estimate + 2 > 2000. -/
theorem claim_C2_counterexample_thresholds :
    countTokens (.str sampleTurnText29) = 29
    ∧ offloadsTurnText "user" sampleTurnText29 = true
    ∧ countTokens sampleFinalContent1999 = 1999
    ∧ offloadsFinalQuery ⟨"user", sampleFinalContent1999⟩ = true :=
  ⟨by decide, by decide, by decide, by decide⟩

/-- Claim C2 as amended: a history-turn side is offloaded iff
`countTokensForMessages` of its singleton message — the turn's
`countTokens` estimate plus the fixed overhead of 2 — is at least 30,
i.e. iff the estimate is at least 28 (so the effective boundary sits at
estimate 27/28, not 29/30); the final live query is offloaded iff its
`countTokensForMessages` strictly exceeds the 2000 ceiling, i.e. iff its
estimate is at least 1999; an offloaded text is replaced by the fixed
back-reference phrase, which contains the uploaded user-facing filename
with its `.txt` extension stripped. -/
theorem claim_C2_offload_boundaries :
    (∀ role text : String,
      (offloadsTurnText role text = true ↔ 28 ≤ countTokens (.str text)))
    ∧ (∀ m : Msg, countTokensForMessages [m] = countTokens m.content + 2)
    ∧ (∀ m : Msg, offloadsFinalQuery m = true ↔ 2000 < countTokens m.content + 2)
    ∧ (∀ u : String, ∃ pre post : String,
        backReference u = pre ++ (stripTxtExtension u ++ post)) := by
  refine ⟨?_, countTokensForMessages_singleton, ?_, ?_⟩
  · intro role text
    simp only [offloadsTurnText, Bool.and_eq_true, decide_eq_true_eq,
      countTokensForMessages_singleton]
    constructor
    · rintro ⟨-, h2⟩
      omega
    · intro h
      refine ⟨?_, by omega⟩
      intro he
      rw [he] at h
      have h0 : countTokens (Content.str "") = 0 := by decide
      omega
  · intro m
    simp only [offloadsFinalQuery, MaxContextTokens, decide_eq_true_eq,
      countTokensForMessages_singleton]
  · intro u
    exact ⟨"查看这个文件并且直接与文件内容进行聊天：", ".txt",
      String.append_assoc _ _ _⟩

/-- Counterexample to claim C3 as stated: in the list
`[user "Q", assistant "A1", assistant "A2", user last]` the second
assistant message arrives while a question is open and the answer is
already filled; the source then overwrites `currentAnswer`, so the
history is `[{Q, A2}]` and the extracted text `"A1"` appears nowhere in
the resulting turn list (it is dropped, not merged). -/
theorem claim_C3_counterexample_assistant_overwrite :
    buildHistory [⟨"user", .str "Q"⟩, ⟨"assistant", .str "A1"⟩,
      ⟨"assistant", .str "A2"⟩, ⟨"user", .str "L"⟩] = [⟨"Q", "A2"⟩]
    ∧ ¬ ("A1".data <:+: "Q".data)
    ∧ ¬ ("A1".data <:+: "A2".data) :=
  ⟨by decide, by decide, by decide⟩

/-- Claim C3 as amended: the history fold is a total function (it cannot
crash), a `user` message arriving while a question is open and no answer
is filled is newline-merged into the question, and a `user` message
arriving when both sides are filled pushes the completed turn; but an
`assistant` message arriving while a question is open — whether or not
the answer is already filled — REPLACES the current answer with its own
text, so a previously filled answer is dropped rather than merged. -/
theorem claim_C3_history_fold_merge_overwrite (st : FoldSt) (msg : Msg) :
    (msg.role = "assistant" → st.hasQ = true →
      histStep st msg =
        { st with curA := extractTextContent msg.content, hasA := true })
    ∧ (msg.role = "user" → st.hasQ = true → st.hasA = false →
      histStep st msg =
        { st with curQ := st.curQ ++ "\n" ++ extractTextContent msg.content })
    ∧ (msg.role = "user" → st.hasQ = true → st.hasA = true →
      histStep st msg = ⟨st.hist ++ [⟨st.curQ, st.curA⟩],
        extractTextContent msg.content, "", true, false⟩) := by
  refine ⟨?_, ?_, ?_⟩
  · intro hrole hq
    simp [histStep, hrole, hq]
  · intro hrole hq ha
    simp [histStep, hrole, hq, ha]
  · intro hrole hq ha
    simp [histStep, hrole, hq, ha]

/-- Witness for the amended C3: with an open question `"Q"` and filled
answer `"A1"`, an assistant message `"A2"` overwrites the answer, while a
user message with no filled answer newline-merges. -/
theorem claim_C3_history_fold_merge_overwrite_witness :
    histStep ⟨[], "Q", "A1", true, true⟩ ⟨"assistant", .str "A2"⟩ =
      ⟨[], "Q", "A2", true, true⟩
    ∧ histStep ⟨[], "Q", "", true, false⟩ ⟨"user", .str "Q2"⟩ =
      ⟨[], "Q\nQ2", "", true, false⟩ :=
  ⟨(claim_C3_history_fold_merge_overwrite ⟨[], "Q", "A1", true, true⟩
      ⟨"assistant", .str "A2"⟩).1 rfl rfl,
   (claim_C3_history_fold_merge_overwrite ⟨[], "Q", "", true, false⟩
      ⟨"user", .str "Q2"⟩).2.1 rfl rfl rfl⟩

/-- Counterexample to claim C4 as stated: for the alternating 2-message
list `[user "Q", assistant "A"]` (N = 2, even), the history over all but
the last message is one turn (N/2 = 1, as claimed) — but that turn's
answer is the EMPTY string, refuting "every produced turn has a non-empty
question and a non-empty answer" (the final assistant message is the live
query's predecessor and its answer side is never seen by the fold). -/
theorem claim_C4_counterexample_last_answer_empty :
    buildHistory (msgsOfPairs [("Q", "A")]) = [⟨"Q", ""⟩]
    ∧ ((buildHistory (msgsOfPairs [("Q", "A")])).all
        fun t => t.Answer ≠ "") = false :=
  ⟨by decide, by decide⟩

/-- Claim C4 as amended: for a message list of N = 2·(k+1) alternating
user/assistant messages (k+1 pairs, user first), building history over
all but the last message produces exactly N/2 turns: the first k turns
are the first k question/answer pairs verbatim, and the last turn carries
the final pair's question with an EMPTY answer (its answer message is
excluded as the live query). Each turn's sides are therefore non-empty
exactly when the corresponding message texts are, except the last
turn's answer, which is always empty. -/
theorem claim_C4_alternating_history (ps : List (String × String))
    (qn rn : String) :
    buildHistory (msgsOfPairs (ps ++ [(qn, rn)])) =
      ps.map pairTurn ++ [⟨qn, ""⟩]
    ∧ (buildHistory (msgsOfPairs (ps ++ [(qn, rn)]))).length =
      (msgsOfPairs (ps ++ [(qn, rn)])).length / 2 := by
  have hlen : ∀ l : List (String × String), (msgsOfPairs l).length = 2 * l.length := by
    intro l
    induction l with
    | nil => rfl
    | cons p rest ih => cases p; simp [msgsOfPairs, ih]; omega
  refine ⟨buildHistory_pairs_concat ps qn rn, ?_⟩
  rw [buildHistory_pairs_concat ps qn rn, hlen]
  simp
  try omega

/-- Witness for the amended C2 at concrete inputs: the 29-word turn text
sits at estimate 29 ≥ 28 and is offloaded, and a concrete user-facing
filename's back-reference contains its extension-stripped form. -/
theorem claim_C2_offload_boundaries_witness :
    offloadsTurnText "user" sampleTurnText29 = true
    ∧ countTokensForMessages [⟨"user", .str sampleTurnText29⟩] =
        countTokens (Content.str sampleTurnText29) + 2
    ∧ ∃ pre post : String,
        backReference "notes.txt" = pre ++ (stripTxtExtension "notes.txt" ++ post) :=
  ⟨(claim_C2_offload_boundaries.1 "user" sampleTurnText29).mpr (by decide),
   claim_C2_offload_boundaries.2.1 ⟨"user", .str sampleTurnText29⟩,
   claim_C2_offload_boundaries.2.2.2 "notes.txt"⟩

/-- Witness for the amended C4 at the concrete 4-message alternating list
`[user "Q1", assistant "A1", user "Q2", assistant "A2"]`. -/
theorem claim_C4_alternating_history_witness :
    buildHistory (msgsOfPairs ([("Q1", "A1")] ++ [("Q2", "A2")])) =
      [("Q1", "A1")].map pairTurn ++ [⟨"Q2", ""⟩]
    ∧ (buildHistory (msgsOfPairs ([("Q1", "A1")] ++ [("Q2", "A2")]))).length =
      (msgsOfPairs ([("Q1", "A1")] ++ [("Q2", "A2")])).length / 2 :=
  claim_C4_alternating_history [("Q1", "A1")] "Q2" "A2"
